import Mathlib

/-!
Shallow embedding of the link-portal server (`server.js`): the persistent
store for folders/links/claim timers, the per-visitor claim cooldown, the
admin PIN gate with its per-IP lockout, the URL-safety validator, and the
catalog mutators.  Timestamps are `Int` milliseconds since the epoch
(`Date.now()`); JavaScript objects used as string-keyed maps are embedded as
association lists whose lookup returns the first matching key.  Each HTTP
handler is a pure function from the loaded store (plus request data and the
current time) to its response together with the store passed to `saveData`,
if any (`none` = no save; the server reloads the store on every request, so
the persisted snapshot is the whole state).
-/

namespace LinksPortal

/-- A link: `{ id, name, url }` (server.js data model). -/
structure Link where
  id : String
  name : String
  url : String
deriving Repr, DecidableEq

/-- A folder: `{ id, title, links }`. -/
structure Folder where
  id : String
  title : String
  links : List Link
deriving Repr, DecidableEq

/-- A claim record `{ lastClaimAt }`, ms since epoch. -/
structure ClaimRecord where
  lastClaimAt : Int
deriving Repr, DecidableEq

/-- The `claims` object: visitor id → claim record, as an association list. -/
abbrev ClaimsMap := List (String × ClaimRecord)

/-- The persisted store shape of `data.json`: `{ folders, claims }`. -/
structure Store where
  folders : List Folder
  claims : ClaimsMap
deriving Repr, DecidableEq

/-- `CLAIM_COOLDOWN_MS = 7 * 24 * 3600 * 1000` (server.js line 38). -/
def CLAIM_COOLDOWN_MS : Int := 7 * 24 * 3600 * 1000

/-- JavaScript object property read `obj[k]`: first binding for the key. -/
def objGet {α : Type} : List (String × α) → String → Option α
  | [], _ => none
  | (k', v) :: t, k => if k' = k then some v else objGet t k

/-- JavaScript object property write `obj[k] = v`: overwrite the binding in
place when the key is present, otherwise append a fresh binding. -/
def objSet {α : Type} : List (String × α) → String → α → List (String × α)
  | [], k, v => [(k, v)]
  | (k', v') :: t, k, v =>
    if k' = k then (k, v) :: t else (k', v') :: objSet t k v

/-- JavaScript `delete obj[k]`. -/
def objDel {α : Type} : List (String × α) → String → List (String × α)
  | [], _ => []
  | (k', v') :: t, k =>
    if k' = k then objDel t k else (k', v') :: objDel t k

/-- `findLinkById(data, linkId)` (server.js lines 69–76): scan folders in
order, and within each folder scan links in order; first match wins. -/
def findLinkById (folders : List Folder) (linkId : String) :
    Option (Folder × Link) :=
  folders.findSome? fun f =>
    (f.links.find? fun l => l.id == linkId).map fun l => (f, l)

/-- `Math.ceil(a / 1000)` on exact integers: ceiling division by 1000,
expressed with Euclidean (floor, for a positive divisor) division. -/
def ceilDiv1000 (a : Int) : Int := (a + 999) / 1000

/-- Responses of `POST /divine/api/sites/claim`. -/
inductive ClaimResult where
  /-- 400 `{ok:false, message:'Missing id'}` -/
  | missingId
  /-- 404 `{ok:false, message:'Not found'}` -/
  | notFound
  /-- 429 `{ok:false, retryAfter}` -/
  | denied (retryAfter : Int)
  /-- 200 `{ok:true, url}` -/
  | ok (url : String)
deriving Repr, DecidableEq

/-- `POST /divine/api/sites/claim` (server.js lines 141–165).  `!id` on a
string body field means the empty string; `record.lastClaimAt || 0` defaults
an absent record to `0`, and `if (last && …)` tests numeric truthiness of
`last`, i.e. `last ≠ 0`. -/
def handleClaim (s : Store) (visitorId linkId : String) (now : Int) :
    ClaimResult × Option Store :=
  if linkId = "" then (.missingId, none)
  else
    match findLinkById s.folders linkId with
    | none => (.notFound, none)
    | some found =>
      let last := ((objGet s.claims visitorId).map
        ClaimRecord.lastClaimAt).getD 0
      if last ≠ 0 ∧ now - last < CLAIM_COOLDOWN_MS then
        (.denied (ceilDiv1000 (CLAIM_COOLDOWN_MS - (now - last))), none)
      else
        let s' : Store := { s with claims := objSet s.claims visitorId ⟨now⟩ }
        (.ok found.2.url, some s')

/-- The store on disk after a handler ran: the saved snapshot if the handler
called `saveData`, otherwise the prior snapshot. -/
def storeAfter (s : Store) (saved : Option Store) : Store := saved.getD s

/-! ### Admin PIN gate (server.js lines 33–36, 172–211) -/

/-- `PIN_MAX_ATTEMPTS = 6`. -/
def PIN_MAX_ATTEMPTS : Nat := 6

/-- `PIN_LOCK_MS = 60 * 1000`. -/
def PIN_LOCK_MS : Int := 60 * 1000

/-- An entry of the in-memory `pinAttempts` map: `{ count, lockUntil }`. -/
structure PinEntry where
  count : Nat
  lockUntil : Int
deriving Repr, DecidableEq

/-- The `pinAttempts` object: ip → entry, as an association list. -/
abbrev Attempts := List (String × PinEntry)

/-- `isIpLocked(ip)` (server.js lines 172–177): an entry is locked when its
`lockUntil` is truthy (nonzero) and lies in the future. -/
def isIpLocked (a : Attempts) (ip : String) (now : Int) : Bool :=
  match objGet a ip with
  | none => false
  | some s => s.lockUntil != 0 && decide (now < s.lockUntil)

/-- `registerPinFailure(ip)` (server.js lines 179–187): increment the count;
on reaching `PIN_MAX_ATTEMPTS` set `lockUntil = now + PIN_LOCK_MS` and reset
the count to 0. -/
def registerPinFailure (a : Attempts) (ip : String) (now : Int) : Attempts :=
  let s := (objGet a ip).getD ⟨0, 0⟩
  let c := s.count + 1
  let s' : PinEntry :=
    if PIN_MAX_ATTEMPTS ≤ c then ⟨0, now + PIN_LOCK_MS⟩ else ⟨c, s.lockUntil⟩
  objSet a ip s'

/-- Responses of `POST /divine/admin/sites/verify-pin`. -/
inductive VerifyResult where
  /-- 429 `{ok:false, message:'Too many attempts…'}` -/
  | rateLimited
  /-- 401 `{ok:false}` -/
  | unauthorized
  /-- 200 `{ok:true}` -/
  | ok
deriving Repr, DecidableEq

/-- `POST /divine/admin/sites/verify-pin` (server.js lines 190–211), as a
transition on the `pinAttempts` map and the session's `isAdmin` flag.
`!pin || !ADMIN_PIN` on string values means either is empty; a correct PIN
sets `isAdmin` and deletes the IP's attempt entry. -/
def handleVerifyPin (a : Attempts) (isAdmin : Bool) (ip pin adminPin : String)
    (now : Int) : VerifyResult × Attempts × Bool :=
  if isIpLocked a ip now then (.rateLimited, a, isAdmin)
  else if pin = "" ∨ adminPin = "" then
    (.unauthorized, registerPinFailure a ip now, isAdmin)
  else if pin = adminPin then (.ok, objDel a ip, true)
  else (.unauthorized, registerPinFailure a ip now, isAdmin)

/-! ### URL validator (server.js lines 78–87) -/

/-- Scheme characters after the first: ASCII alphanumeric, `+`, `-`, `.`. -/
def isSchemeChar (c : Char) : Bool :=
  c.isAlpha || c.isDigit || c == '+' || c == '-' || c == '.'

/-- Split a character list at the first `':'`, returning the part before it
and the part after it; `none` when there is no colon. -/
def splitAtColon : List Char → Option (List Char × List Char)
  | [] => none
  | c :: rest =>
    if c = ':' then some ([], rest)
    else (splitAtColon rest).map fun p => (c :: p.1, p.2)

/-- A parsed absolute URL: its normalized protocol (scheme plus `':'`) and
the canonical serialization of everything after the scheme. -/
structure ParsedUrl where
  protocol : String
  rest : String
deriving Repr, DecidableEq

/-- `u.toString()`: canonical serialization of a parsed URL. -/
def ParsedUrl.toString (u : ParsedUrl) : String := u.protocol ++ u.rest

/-- Modelled from the spec: the WHATWG URL parser behind `new URL(raw)` is a
platform library, not part of this repository.  Per the spec it rejects
anything that fails to parse as an absolute URL and produces a canonical
normalized serialization: the scheme is a letter followed by scheme
characters, lowercased; for the special schemes `http`/`https` an authority
introduced by `//` with a nonempty host is required, the host is lowercased
and an empty path serializes as `/`; other schemes keep their remainder
opaque. -/
def parseUrl (raw : String) : Option ParsedUrl :=
  match splitAtColon raw.toList with
  | none => none
  | some (schemeChars, rest) =>
    match schemeChars with
    | [] => none
    | c0 :: cs =>
      if c0.isAlpha && cs.all isSchemeChar then
        let scheme := String.mk ((c0 :: cs).map Char.toLower)
        if scheme = "http" ∨ scheme = "https" then
          match rest with
          | '/' :: '/' :: r =>
            let host := r.takeWhile fun c => !(c == '/' || c == '?' || c == '#')
            let tail := r.dropWhile fun c => !(c == '/' || c == '?' || c == '#')
            if host.isEmpty then none
            else
              some ⟨scheme ++ ":",
                "//" ++ String.mk (host.map Char.toLower) ++
                  (if tail.isEmpty then "/" else String.mk tail)⟩
          | _ => none
        else
          some ⟨scheme ++ ":", String.mk rest⟩
      else none

/-- `ensureUrlSafe(raw)` (server.js lines 78–87): parse the URL; return
`null` when parsing fails or the protocol is neither `http:` nor `https:`;
otherwise return `u.toString()`. -/
def ensureUrlSafe (raw : String) : Option String :=
  match parseUrl raw with
  | none => none
  | some u =>
    if u.protocol ≠ "http:" ∧ u.protocol ≠ "https:" then none
    else some u.toString

/-! ### Catalog read and mutators (server.js lines 129–138, 243–260) -/

/-- The link shape returned by `GET /divine/api/sites/links`. -/
structure LinkView where
  id : String
  name : String
  url : String
deriving Repr, DecidableEq

/-- The folder shape returned by `GET /divine/api/sites/links`. -/
structure FolderView where
  id : String
  title : String
  links : List LinkView
deriving Repr, DecidableEq

/-- The response shape of one folder: `{id, title, links:[{id,name,url}]}`. -/
def viewOfFolder (f : Folder) : FolderView :=
  ⟨f.id, f.title, f.links.map fun l => ⟨l.id, l.name, l.url⟩⟩

/-- `GET /divine/api/sites/links` (server.js lines 129–138): project the
folders to the small response shape; no claim info, no save. -/
def handleGetLinks (s : Store) : List FolderView × Option Store :=
  ((s.folders.map viewOfFolder), none)

/-- The characters JavaScript's `String.prototype.trim` strips: WhiteSpace
and LineTerminator code points. -/
def isJsSpace (c : Char) : Bool :=
  c == ' ' || c == '\t' || c == '\n' || c == '\r' ||
    c == '\u000b' || c == '\u000c' || c == '\u00a0' ||
    c == '\u2028' || c == '\u2029' || c == '\ufeff'

/-- JavaScript `s.trim()`: drop leading and trailing whitespace. -/
def jsTrim (s : String) : String :=
  String.mk (((s.toList.dropWhile isJsSpace).reverse.dropWhile
    isJsSpace).reverse)

/-- Responses of `POST /divine/admin/sites/add-link`. -/
inductive AddLinkResult where
  /-- 400 `{ok:false, message:'folderId, name, url required'}` -/
  | invalidInput
  /-- 400 `{ok:false, message:'invalid url'}` -/
  | invalidUrl
  /-- 404 `{ok:false, message:'folder not found'}` -/
  | folderNotFound
  /-- 200 `{ok:true, id}` -/
  | ok (id : String)
deriving Repr, DecidableEq

/-- `folder.links.push(link)` on the first folder whose id matches. -/
def pushLinkToFolder : List Folder → String → Link → List Folder
  | [], _, _ => []
  | f :: fs, fid, l =>
    if f.id = fid then { f with links := f.links ++ [l] } :: fs
    else f :: pushLinkToFolder fs fid l

/-- `POST /divine/admin/sites/add-link` (server.js lines 243–260), after the
`requireAdmin` gate passed.  Field order of the source: missing-field check,
then URL validation on `String(url).trim()`, then folder resolution, then
push and save.  `newLinkId` stands for the freshly generated
`'link-' + uuidv4()`. -/
def handleAddLink (s : Store) (folderId name url : String)
    (newLinkId : String) : AddLinkResult × Option Store :=
  if folderId = "" ∨ name = "" ∨ url = "" then (.invalidInput, none)
  else
    match ensureUrlSafe (jsTrim url) with
    | none => (.invalidUrl, none)
    | some safe =>
      match s.folders.find? (fun f => f.id == folderId) with
      | none => (.folderNotFound, none)
      | some _ =>
        let s' : Store :=
          { s with folders :=
              (pushLinkToFolder s.folders folderId
                ⟨newLinkId, jsTrim name, safe⟩) }
        (.ok newLinkId, some s')

/-! ### Persistent store load (server.js lines 40–67) -/

/-- The outcome of `fs.readFile` + `JSON.parse` on `data.json`, the external
I/O that `loadData` wraps in `try`/`catch`: either the read or parse threw
(missing or unparsable file), or a parsed document whose `folders` field is
an array or not (`none`) and whose `claims` field is an object or not. -/
inductive ReadResult where
  | failure
  | success (folders : Option (List Folder)) (claims : Option ClaimsMap)

/-- The initial store `{ folders: [], claims: {} }`. -/
def emptyStore : Store := ⟨[], []⟩

/-- `loadData()` (server.js lines 40–54): on a successful read, coerce the
two fields to the expected shapes (defaulting to empty); on any failure,
initialize the empty store, persist it, and return it.  The second component
is the store handed to `saveData`, if any.  The function is total: no error
escapes to the caller. -/
def loadData : ReadResult → Store × Option Store
  | .failure => (emptyStore, some emptyStore)
  | .success fs cs => ({ folders := fs.getD [], claims := cs.getD [] }, none)

/-! ### Sample data for concrete instantiations -/

/-- A sample folder holding one link. -/
def demoFolder : Folder := ⟨"f1", "T", [⟨"l1", "n", "https://a/"⟩]⟩

/-- A store whose only visitor record carries `lastClaimAt = 0`. -/
def storeZeroClaim : Store := ⟨[demoFolder], [("v", ⟨0⟩)]⟩

/-- A store whose only visitor record carries `lastClaimAt = 1`. -/
def storeOneClaim : Store := ⟨[demoFolder], [("v", ⟨1⟩)]⟩

/-! ### Association-list (JavaScript object) lemmas -/

theorem objGet_objSet_self {α : Type} (m : List (String × α)) (k : String)
    (v : α) : objGet (objSet m k v) k = some v := by
  induction m with
  | nil => simp [objSet, objGet]
  | cons p t ih =>
    obtain ⟨k0, v0⟩ := p
    by_cases h : k0 = k <;> simp [objSet, objGet, h, ih]

theorem objGet_objSet_ne {α : Type} (m : List (String × α)) {k k' : String}
    (v : α) (h : k' ≠ k) : objGet (objSet m k v) k' = objGet m k' := by
  induction m with
  | nil => simp [objSet, objGet, Ne.symm h]
  | cons p t ih =>
    obtain ⟨k0, v0⟩ := p
    by_cases h0 : k0 = k
    · subst h0
      simp [objSet, objGet, Ne.symm h]
    · simp [objSet, objGet, h0, ih]

theorem objGet_objDel_self {α : Type} (m : List (String × α)) (k : String) :
    objGet (objDel m k) k = none := by
  induction m with
  | nil => simp [objDel, objGet]
  | cons p t ih =>
    obtain ⟨k0, v0⟩ := p
    by_cases h : k0 = k <;> simp [objDel, objGet, h, ih]

/-! ### Ceiling-division lemmas -/

theorem ceilDiv1000_mono {a b : Int} (h : a ≤ b) :
    ceilDiv1000 a ≤ ceilDiv1000 b :=
  Int.ediv_le_ediv (by norm_num) (by omega)

theorem ceilDiv1000_strict {a b : Int} (h : a + 1000 ≤ b) :
    ceilDiv1000 a < ceilDiv1000 b := by
  have key : (a + 999 + 1 * 1000) / 1000 = (a + 999) / 1000 + 1 :=
    Int.add_mul_ediv_right (a + 999) 1 (by norm_num)
  have mono : (a + 999 + 1 * 1000) / 1000 ≤ (b + 999) / 1000 :=
    Int.ediv_le_ediv (by norm_num) (by omega)
  unfold ceilDiv1000
  omega

theorem ceilDiv1000_pos {a : Int} (h : 1 ≤ a) : 1 ≤ ceilDiv1000 a :=
  (Int.le_ediv_iff_mul_le (by norm_num)).mpr (by omega)

/-! ### Claim-handler characterizations -/

theorem handleClaim_denied {s : Store} {v id : String} {now : Int}
    {fl : Folder × Link} {rec : ClaimRecord}
    (hid : id ≠ "") (hfind : findLinkById s.folders id = some fl)
    (hrec : objGet s.claims v = some rec) (hnz : rec.lastClaimAt ≠ 0)
    (hcd : now - rec.lastClaimAt < CLAIM_COOLDOWN_MS) :
    handleClaim s v id now =
      (.denied (ceilDiv1000 (CLAIM_COOLDOWN_MS - (now - rec.lastClaimAt))),
        none) := by
  simp [handleClaim, hid, hfind, hrec, hnz, hcd]

theorem handleClaim_grant {s : Store} {v id : String} {now : Int}
    {fl : Folder × Link}
    (hid : id ≠ "") (hfind : findLinkById s.folders id = some fl)
    (h : objGet s.claims v = none ∨
      ∃ rec, objGet s.claims v = some rec ∧
        CLAIM_COOLDOWN_MS ≤ now - rec.lastClaimAt) :
    handleClaim s v id now =
      (.ok fl.2.url, some ⟨s.folders, objSet s.claims v ⟨now⟩⟩) := by
  rcases h with h | ⟨rec, hrec, hge⟩
  · simp [handleClaim, hid, hfind, h]
  · simp [handleClaim, hid, hfind, hrec, not_lt.mpr hge]

/-! ### PIN-gate characterizations -/

theorem isIpLocked_of_none {a : Attempts} {ip : String} {now : Int}
    (h : objGet a ip = none) : isIpLocked a ip now = false := by
  simp [isIpLocked, h]

theorem isIpLocked_of_lockZero {a : Attempts} {ip : String} {now : Int}
    {c : Nat} (h : objGet a ip = some ⟨c, 0⟩) :
    isIpLocked a ip now = false := by
  simp [isIpLocked, h]

theorem isIpLocked_of_future {a : Attempts} {ip : String} {now : Int}
    {e : PinEntry} (h : objGet a ip = some e) (h1 : now < e.lockUntil)
    (h2 : 0 ≤ now) : isIpLocked a ip now = true := by
  have hne : e.lockUntil ≠ 0 := by omega
  simp [isIpLocked, h, h1, hne]

theorem registerPinFailure_of_none {a : Attempts} {ip : String} {now : Int}
    (h : objGet a ip = none) :
    registerPinFailure a ip now = objSet a ip ⟨1, 0⟩ := by
  simp [registerPinFailure, h, PIN_MAX_ATTEMPTS]

theorem registerPinFailure_of_lt {a : Attempts} {ip : String} {now : Int}
    {c : Nat} {L : Int} (h : objGet a ip = some ⟨c, L⟩)
    (hc : c + 1 < PIN_MAX_ATTEMPTS) :
    registerPinFailure a ip now = objSet a ip ⟨c + 1, L⟩ := by
  simp only [registerPinFailure, h, Option.getD_some]
  rw [if_neg (by omega)]

theorem registerPinFailure_of_max {a : Attempts} {ip : String} {now : Int}
    {c : Nat} {L : Int} (h : objGet a ip = some ⟨c, L⟩)
    (hc : PIN_MAX_ATTEMPTS ≤ c + 1) :
    registerPinFailure a ip now = objSet a ip ⟨0, now + PIN_LOCK_MS⟩ := by
  simp only [registerPinFailure, h, Option.getD_some]
  rw [if_pos (by omega)]

theorem handleVerifyPin_locked {a : Attempts} {b : Bool}
    {ip pin adminPin : String} {now : Int}
    (h : isIpLocked a ip now = true) :
    handleVerifyPin a b ip pin adminPin now = (.rateLimited, a, b) := by
  simp [handleVerifyPin, h]

theorem handleVerifyPin_wrong {a : Attempts} {b : Bool}
    {ip pin adminPin : String} {now : Int}
    (h : isIpLocked a ip now = false) (hw : pin ≠ adminPin) :
    handleVerifyPin a b ip pin adminPin now =
      (.unauthorized, registerPinFailure a ip now, b) := by
  by_cases h1 : pin = "" ∨ adminPin = ""
  · simp [handleVerifyPin, h, h1]
  · simp [handleVerifyPin, h, h1, hw]

theorem handleVerifyPin_correct {a : Attempts} {b : Bool}
    {ip adminPin : String} {now : Int}
    (h : isIpLocked a ip now = false) (hne : adminPin ≠ "") :
    handleVerifyPin a b ip adminPin adminPin now = (.ok, objDel a ip, true) := by
  simp [handleVerifyPin, h, hne]

theorem handleVerifyPin_noSecret {a : Attempts} {b : Bool} {ip pin : String}
    {now : Int} (h : isIpLocked a ip now = false) :
    handleVerifyPin a b ip pin "" now =
      (.unauthorized, registerPinFailure a ip now, b) := by
  simp [handleVerifyPin, h]

/-- One verify-pin attempt as a transition on `(pinAttempts, isAdmin)`. -/
def verifyStep (st : Attempts × Bool) (ip pin adminPin : String) (t : Int) :
    Attempts × Bool :=
  (handleVerifyPin st.1 st.2 ip pin adminPin t).2

theorem verifyStep_wrong_fresh {a : Attempts} {b : Bool}
    {ip pin adminPin : String} {t : Int}
    (h : objGet a ip = none) (hw : pin ≠ adminPin) :
    verifyStep (a, b) ip pin adminPin t = (objSet a ip ⟨1, 0⟩, b) := by
  unfold verifyStep
  rw [handleVerifyPin_wrong (isIpLocked_of_none h) hw,
    registerPinFailure_of_none h]

theorem verifyStep_wrong_count {a : Attempts} {b : Bool}
    {ip pin adminPin : String} {t : Int} {c c' : Nat}
    (h : objGet a ip = some ⟨c, 0⟩) (hw : pin ≠ adminPin)
    (hc : c + 1 < PIN_MAX_ATTEMPTS) (hc' : c' = c + 1) :
    verifyStep (a, b) ip pin adminPin t = (objSet a ip ⟨c', 0⟩, b) := by
  subst hc'
  unfold verifyStep
  rw [handleVerifyPin_wrong (isIpLocked_of_lockZero h) hw,
    registerPinFailure_of_lt h hc]

theorem verifyStep_wrong_sixth {a : Attempts} {b : Bool}
    {ip pin adminPin : String} {t : Int} {c : Nat}
    (h : objGet a ip = some ⟨c, 0⟩) (hw : pin ≠ adminPin)
    (hc : PIN_MAX_ATTEMPTS ≤ c + 1) :
    verifyStep (a, b) ip pin adminPin t =
      (objSet a ip ⟨0, t + PIN_LOCK_MS⟩, b) := by
  unfold verifyStep
  rw [handleVerifyPin_wrong (isIpLocked_of_lockZero h) hw,
    registerPinFailure_of_max h hc]

/-! ### Claim theorems -/

/-- C1, counterexample: the claim as stated is false.  In the store
`storeZeroClaim` the claims mapping has a record for visitor `"v"`
(`lastClaimAt = 0`) and at `now = 1` the elapsed time `1 - 0` is below the
7-day cooldown, yet the claim operation does not deny: `lastClaimAt = 0` is
numerically falsy, so `if (last && …)` skips the cooldown branch and the
handler grants the claim and mutates the store. -/
theorem claim_C1_counterexample :
    objGet storeZeroClaim.claims "v" = some ⟨0⟩ ∧
    (1 : Int) - 0 < CLAIM_COOLDOWN_MS ∧
    handleClaim storeZeroClaim "v" "l1" 1 =
      (.ok "https://a/", some ⟨[demoFolder], [("v", ⟨1⟩)]⟩) := by
  refine ⟨rfl, by decide, ?_⟩
  rfl

/-- C1, amended: for every claim request whose linkId resolves to an
existing link, if the store's claims mapping has a record with a **nonzero**
`lastClaimAt` for the requesting visitor and `now - lastClaimAt` is below
the 7-day cooldown, the operation returns Denied (429) carrying
`retryAfterSeconds = ceil((COOLDOWN - elapsed)/1000)` and performs no save,
leaving the store unchanged. -/
theorem claim_C1 (s : Store) (v id : String) (now : Int)
    (fl : Folder × Link) (rec : ClaimRecord)
    (hid : id ≠ "") (hfind : findLinkById s.folders id = some fl)
    (hrec : objGet s.claims v = some rec) (hnz : rec.lastClaimAt ≠ 0)
    (hcd : now - rec.lastClaimAt < CLAIM_COOLDOWN_MS) :
    handleClaim s v id now =
      (.denied (ceilDiv1000 (CLAIM_COOLDOWN_MS - (now - rec.lastClaimAt))),
        none) ∧
    storeAfter s (handleClaim s v id now).2 = s := by
  have h := handleClaim_denied hid hfind hrec hnz hcd
  exact ⟨h, by rw [h]; rfl⟩

/-- C1 witness: the amended theorem applied to `storeOneClaim` at
`now = 2`. -/
theorem claim_C1_witness :
    handleClaim storeOneClaim "v" "l1" 2 =
      (.denied (ceilDiv1000 (CLAIM_COOLDOWN_MS - (2 - (1 : Int)))), none) ∧
    storeAfter storeOneClaim (handleClaim storeOneClaim "v" "l1" 2).2 =
      storeOneClaim :=
  claim_C1 storeOneClaim "v" "l1" 2 (demoFolder, ⟨"l1", "n", "https://a/"⟩)
    ⟨1⟩ (by decide) rfl rfl (by decide) (by decide)

/-- C2: for every claim request whose linkId resolves to an existing link,
if the visitor has no claim record or at least 7 days elapsed since
`lastClaimAt`, the handler sets `claims[visitorId] = {lastClaimAt: now}`,
persists exactly that store (folders untouched), returns the link's url with
ok, and leaves every other visitor's record unchanged. -/
theorem claim_C2 (s : Store) (v id : String) (now : Int) (fl : Folder × Link)
    (hid : id ≠ "") (hfind : findLinkById s.folders id = some fl)
    (h : objGet s.claims v = none ∨
      ∃ rec, objGet s.claims v = some rec ∧
        CLAIM_COOLDOWN_MS ≤ now - rec.lastClaimAt) :
    handleClaim s v id now =
      (.ok fl.2.url, some ⟨s.folders, objSet s.claims v ⟨now⟩⟩) ∧
    objGet (objSet s.claims v ⟨now⟩) v = some ⟨now⟩ ∧
    (∀ v', v' ≠ v → objGet (objSet s.claims v ⟨now⟩) v' = objGet s.claims v') :=
  ⟨handleClaim_grant hid hfind h, objGet_objSet_self s.claims v ⟨now⟩,
    fun _ hv => objGet_objSet_ne s.claims ⟨now⟩ hv⟩

/-- C2 witness: a first-time visitor `"w"` claiming link `"l1"` at
`now = 5`. -/
theorem claim_C2_witness :
    handleClaim ⟨[demoFolder], []⟩ "w" "l1" 5 =
      (.ok "https://a/", some ⟨[demoFolder], objSet [] "w" ⟨5⟩⟩) ∧
    objGet (objSet ([] : ClaimsMap) "w" ⟨5⟩) "x" = objGet ([] : ClaimsMap) "x" := by
  have h := claim_C2 ⟨[demoFolder], []⟩ "w" "l1" 5
    (demoFolder, ⟨"l1", "n", "https://a/"⟩) (by decide) rfl (Or.inl rfl)
  exact ⟨h.1, h.2.2 "x" (by decide)⟩

/-- C7: handling `GET /links` performs no save, so the store after the read
(the persisted snapshot) equals the store before it — claims mapping,
folder ids and link ids included. -/
theorem claim_C7 (s : Store) :
    storeAfter s (handleGetLinks s).2 = s ∧ (handleGetLinks s).2 = none :=
  ⟨rfl, rfl⟩

/-- C9: `loadData` is total over every read outcome (no error surfaces to
the caller); on a missing or unparsable snapshot it returns the empty store
(no folders, no claims) after persisting exactly that store, and on a parsed
snapshot it coerces the two fields to their expected shapes without
saving. -/
theorem claim_C9 :
    (∀ r, ∃ st save, loadData r = (st, save)) ∧
    loadData .failure = (emptyStore, some emptyStore) ∧
    emptyStore.folders = [] ∧ emptyStore.claims = [] ∧
    (∀ fs cs, loadData (.success fs cs) =
      ({ folders := fs.getD [], claims := cs.getD [] }, none)) :=
  ⟨fun _ => ⟨_, _, rfl⟩, rfl, rfl, rfl, fun _ _ => rfl⟩

/-- C10: the body of `GET /links` is a function of the folders alone — any
two stores sharing folders produce identical responses whatever their claims
mappings — and it equals the claims-free projection `viewOfFolder` mapped
over the folders, whose output shape carries only ids, titles, names and
urls. -/
theorem claim_C10 :
    (∀ (folders : List Folder) (c1 c2 : ClaimsMap),
      handleGetLinks ⟨folders, c1⟩ = handleGetLinks ⟨folders, c2⟩) ∧
    (∀ s : Store, (handleGetLinks s).1 = s.folders.map viewOfFolder) :=
  ⟨fun _ _ _ => rfl, fun _ => rfl⟩

/-- C3: (a) six consecutive wrong-PIN attempts from an IP with no prior
attempt entry leave the entry at `{count: 0, lockUntil: t6 + 60s}` where
`t6` is the time of the sixth attempt; (b) while an IP's entry has
`lockUntil > now`, every verify-pin attempt — whatever the submitted PIN —
returns RateLimited with the attempts map and the session's `isAdmin` flag
untouched; (c) a correct PIN submitted while not locked (in particular
before the sixth failure) returns ok and deletes the IP's attempt entry
entirely. -/
theorem claim_C3 :
    (∀ (a0 : Attempts) (b0 : Bool) (ip adminPin p1 p2 p3 p4 p5 p6 : String)
        (t1 t2 t3 t4 t5 t6 : Int),
      objGet a0 ip = none →
      p1 ≠ adminPin → p2 ≠ adminPin → p3 ≠ adminPin →
      p4 ≠ adminPin → p5 ≠ adminPin → p6 ≠ adminPin →
      objGet (verifyStep (verifyStep (verifyStep (verifyStep (verifyStep
          (verifyStep (a0, b0) ip p1 adminPin t1) ip p2 adminPin t2)
          ip p3 adminPin t3) ip p4 adminPin t4) ip p5 adminPin t5)
          ip p6 adminPin t6).1 ip = some ⟨0, t6 + PIN_LOCK_MS⟩) ∧
    (∀ (a : Attempts) (b : Bool) (ip pin adminPin : String) (now : Int)
        (e : PinEntry),
      objGet a ip = some e → now < e.lockUntil → 0 ≤ now →
      handleVerifyPin a b ip pin adminPin now = (.rateLimited, a, b)) ∧
    (∀ (a : Attempts) (b : Bool) (ip adminPin : String) (now : Int),
      isIpLocked a ip now = false → adminPin ≠ "" →
      handleVerifyPin a b ip adminPin adminPin now = (.ok, objDel a ip, true) ∧
      objGet (objDel a ip) ip = none) := by
  refine ⟨?_, ?_, ?_⟩
  · intro a0 b0 ip adminPin p1 p2 p3 p4 p5 p6 t1 t2 t3 t4 t5 t6
      h0 w1 w2 w3 w4 w5 w6
    have r1 : verifyStep (a0, b0) ip p1 adminPin t1 =
        (objSet a0 ip ⟨1, 0⟩, b0) :=
      verifyStep_wrong_fresh h0 w1
    have g1 : objGet (objSet a0 ip (⟨1, 0⟩ : PinEntry)) ip = some ⟨1, 0⟩ :=
      objGet_objSet_self _ _ _
    have r2 : verifyStep (objSet a0 ip ⟨1, 0⟩, b0) ip p2 adminPin t2 =
        (objSet (objSet a0 ip ⟨1, 0⟩) ip ⟨2, 0⟩, b0) :=
      verifyStep_wrong_count g1 w2 (by norm_num [PIN_MAX_ATTEMPTS])
        (by norm_num)
    have g2 : objGet (objSet (objSet a0 ip ⟨1, 0⟩) ip (⟨2, 0⟩ : PinEntry)) ip =
        some ⟨2, 0⟩ :=
      objGet_objSet_self _ _ _
    have r3 : verifyStep (objSet (objSet a0 ip ⟨1, 0⟩) ip ⟨2, 0⟩, b0)
          ip p3 adminPin t3 =
        (objSet (objSet (objSet a0 ip ⟨1, 0⟩) ip ⟨2, 0⟩) ip ⟨3, 0⟩, b0) :=
      verifyStep_wrong_count g2 w3 (by norm_num [PIN_MAX_ATTEMPTS])
        (by norm_num)
    have g3 : objGet (objSet (objSet (objSet a0 ip ⟨1, 0⟩) ip ⟨2, 0⟩) ip
          (⟨3, 0⟩ : PinEntry)) ip = some ⟨3, 0⟩ :=
      objGet_objSet_self _ _ _
    have r4 : verifyStep
          (objSet (objSet (objSet a0 ip ⟨1, 0⟩) ip ⟨2, 0⟩) ip ⟨3, 0⟩, b0)
          ip p4 adminPin t4 =
        (objSet (objSet (objSet (objSet a0 ip ⟨1, 0⟩) ip ⟨2, 0⟩) ip ⟨3, 0⟩)
          ip ⟨4, 0⟩, b0) :=
      verifyStep_wrong_count g3 w4 (by norm_num [PIN_MAX_ATTEMPTS])
        (by norm_num)
    have g4 : objGet (objSet (objSet (objSet (objSet a0 ip ⟨1, 0⟩) ip ⟨2, 0⟩)
          ip ⟨3, 0⟩) ip (⟨4, 0⟩ : PinEntry)) ip = some ⟨4, 0⟩ :=
      objGet_objSet_self _ _ _
    have r5 : verifyStep
          (objSet (objSet (objSet (objSet a0 ip ⟨1, 0⟩) ip ⟨2, 0⟩) ip ⟨3, 0⟩)
            ip ⟨4, 0⟩, b0) ip p5 adminPin t5 =
        (objSet (objSet (objSet (objSet (objSet a0 ip ⟨1, 0⟩) ip ⟨2, 0⟩)
          ip ⟨3, 0⟩) ip ⟨4, 0⟩) ip ⟨5, 0⟩, b0) :=
      verifyStep_wrong_count g4 w5 (by norm_num [PIN_MAX_ATTEMPTS])
        (by norm_num)
    have g5 : objGet (objSet (objSet (objSet (objSet (objSet a0 ip ⟨1, 0⟩)
          ip ⟨2, 0⟩) ip ⟨3, 0⟩) ip ⟨4, 0⟩) ip (⟨5, 0⟩ : PinEntry)) ip =
        some ⟨5, 0⟩ :=
      objGet_objSet_self _ _ _
    have r6 : verifyStep
          (objSet (objSet (objSet (objSet (objSet a0 ip ⟨1, 0⟩) ip ⟨2, 0⟩)
            ip ⟨3, 0⟩) ip ⟨4, 0⟩) ip ⟨5, 0⟩, b0) ip p6 adminPin t6 =
        (objSet (objSet (objSet (objSet (objSet (objSet a0 ip ⟨1, 0⟩)
          ip ⟨2, 0⟩) ip ⟨3, 0⟩) ip ⟨4, 0⟩) ip ⟨5, 0⟩) ip
          ⟨0, t6 + PIN_LOCK_MS⟩, b0) :=
      verifyStep_wrong_sixth g5 w6 (by norm_num [PIN_MAX_ATTEMPTS])
    rw [r1, r2, r3, r4, r5, r6]
    exact objGet_objSet_self _ _ _
  · intro a b ip pin adminPin now e h h1 h2
    exact handleVerifyPin_locked (isIpLocked_of_future h h1 h2)
  · intro a b ip adminPin now h hne
    exact ⟨handleVerifyPin_correct h hne, objGet_objDel_self a ip⟩

/-- C3 witness: six wrong PINs `"x"` against secret `"1234"` from a fresh
IP at times 1..6 lock until 60006; an attempt at time 50 against a lock
expiring at 100 is rate limited even with the correct PIN; a correct PIN
with three prior failures and no lock clears the entry. -/
theorem claim_C3_witness :
    (objGet (verifyStep (verifyStep (verifyStep (verifyStep (verifyStep
        (verifyStep (([] : Attempts), false) "i" "x" "1234" 1)
        "i" "x" "1234" 2) "i" "x" "1234" 3) "i" "x" "1234" 4)
        "i" "x" "1234" 5) "i" "x" "1234" 6).1 "i" =
      some ⟨0, 6 + PIN_LOCK_MS⟩) ∧
    handleVerifyPin [("i", ⟨0, 100⟩)] false "i" "1234" "1234" 50 =
      (.rateLimited, [("i", ⟨0, 100⟩)], false) ∧
    (handleVerifyPin [("i", ⟨3, 0⟩)] false "i" "1234" "1234" 7 =
      (.ok, objDel [("i", ⟨3, 0⟩)] "i", true) ∧
    objGet (objDel ([("i", ⟨3, 0⟩)] : Attempts) "i") "i" = none) :=
  ⟨claim_C3.1 [] false "i" "1234" "x" "x" "x" "x" "x" "x" 1 2 3 4 5 6
      rfl (by decide) (by decide) (by decide) (by decide) (by decide)
      (by decide),
    claim_C3.2.1 [("i", ⟨0, 100⟩)] false "i" "1234" "1234" 50 ⟨0, 100⟩
      rfl (by decide) (by decide),
    claim_C3.2.2 [("i", ⟨3, 0⟩)] false "i" "1234" 7 (by decide) (by decide)⟩

/-- C6: with no configured admin secret (`ADMIN_PIN = ""`), every verify-pin
attempt leaves the session's `isAdmin` flag unchanged; a locked IP gets
RateLimited with no state change, and an unlocked IP gets Unauthorized with
the failure registered against the per-IP lockout exactly as a wrong PIN
would be — for every submitted PIN value. -/
theorem claim_C6 (a : Attempts) (b : Bool) (ip pin : String) (now : Int) :
    ((handleVerifyPin a b ip pin "" now).2.2 = b) ∧
    (isIpLocked a ip now = true →
      handleVerifyPin a b ip pin "" now = (.rateLimited, a, b)) ∧
    (isIpLocked a ip now = false →
      handleVerifyPin a b ip pin "" now =
        (.unauthorized, registerPinFailure a ip now, b)) := by
  by_cases h : isIpLocked a ip now
  · rw [handleVerifyPin_locked h]
    exact ⟨rfl, fun _ => rfl, fun hf => absurd h (by simp [hf])⟩
  · have h' : isIpLocked a ip now = false := by simpa using h
    rw [handleVerifyPin_noSecret h']
    exact ⟨rfl, fun ht => absurd ht (by simp [h']), fun _ => rfl⟩

/-- C6 witness: the theorem applied to a fresh IP (unlocked, correct-shaped
PIN `"1234"`) and to a locked IP at time 50 with `lockUntil = 100`. -/
theorem claim_C6_witness :
    ((handleVerifyPin [] false "i" "1234" "" 5).2.2 = false) ∧
    handleVerifyPin [] false "i" "1234" "" 5 =
      (.unauthorized, registerPinFailure [] "i" 5, false) ∧
    handleVerifyPin [("i", ⟨0, 100⟩)] true "i" "1234" "" 50 =
      (.rateLimited, [("i", ⟨0, 100⟩)], true) :=
  ⟨(claim_C6 [] false "i" "1234" 5).1,
    (claim_C6 [] false "i" "1234" 5).2.2 (by decide),
    (claim_C6 [("i", ⟨0, 100⟩)] true "i" "1234" 50).2.1 (by decide)⟩

/-- C4: the URL validator returns none exactly when the raw string fails to
parse as an absolute URL or parses with a scheme other than http or https;
every accepted input yields the canonical serialization of the parsed URL;
in particular `javascript:alert(1)` is rejected and
`https://example.com/a?x=1` is accepted in canonical form. -/
theorem claim_C4 :
    (∀ raw, ensureUrlSafe raw = none ↔
      (parseUrl raw = none ∨
        ∃ u, parseUrl raw = some u ∧
          u.protocol ≠ "http:" ∧ u.protocol ≠ "https:")) ∧
    (∀ raw u, parseUrl raw = some u →
      (u.protocol = "http:" ∨ u.protocol = "https:") →
      ensureUrlSafe raw = some u.toString) ∧
    ensureUrlSafe "javascript:alert(1)" = none ∧
    ensureUrlSafe "https://example.com/a?x=1" = some "https://example.com/a?x=1" := by
  refine ⟨?_, ?_, by decide, by decide⟩
  · intro raw
    cases hp : parseUrl raw with
    | none => simp [ensureUrlSafe, hp]
    | some u =>
      simp only [ensureUrlSafe, hp]
      by_cases hpr : u.protocol ≠ "http:" ∧ u.protocol ≠ "https:"
      · simp [hpr]
      · simp only [if_neg hpr]
        simp [hpr]
  · intro raw u hp hpr
    have hcond : ¬ (u.protocol ≠ "http:" ∧ u.protocol ≠ "https:") := by
      rcases hpr with h | h <;> simp [h]
    simp [ensureUrlSafe, hp, hcond]

/-- C4 witness: the acceptance clause applied to `"http://x"`, whose parse
is `⟨"http:", "//x/"⟩`. -/
theorem claim_C4_witness :
    ensureUrlSafe "http://x" = some (ParsedUrl.toString ⟨"http:", "//x/"⟩) :=
  claim_C4.2.1 "http://x" ⟨"http:", "//x/"⟩ (by decide) (Or.inl rfl)

/-- C5, counterexample: the claim as stated is false.  With all three fields
present, folderId `"f"` unresolvable in the empty store, and url
`javascript:alert(1)`, the add-link handler returns InvalidUrl (400), not
NotFound (404): the URL gate runs before folder resolution. -/
theorem claim_C5_counterexample :
    (emptyStore.folders.find? (fun f => f.id == "f") = none) ∧
    handleAddLink emptyStore "f" "n" "javascript:alert(1)" "L" =
      (.invalidUrl, none) ∧
    AddLinkResult.invalidUrl ≠ AddLinkResult.folderNotFound := by
  exact ⟨rfl, by decide, by decide⟩

/-- C5, amended: for every authenticated addLink request in which folderId,
name, and url are all present, the URL validator accepts the trimmed url,
and folderId does not resolve to any folder, the operation fails with
NotFound (404) and performs no save: the store is unchanged. -/
theorem claim_C5 (s : Store) (folderId name url newId : String)
    (h1 : folderId ≠ "") (h2 : name ≠ "") (h3 : url ≠ "")
    (h4 : ∃ safe, ensureUrlSafe (jsTrim url) = some safe)
    (h5 : s.folders.find? (fun f => f.id == folderId) = none) :
    handleAddLink s folderId name url newId = (.folderNotFound, none) ∧
    storeAfter s (handleAddLink s folderId name url newId).2 = s := by
  obtain ⟨safe, hsafe⟩ := h4
  have h : handleAddLink s folderId name url newId = (.folderNotFound, none) := by
    simp [handleAddLink, h1, h2, h3, hsafe, h5]
  exact ⟨h, by rw [h]; rfl⟩

/-- C5 witness: the amended theorem applied to folder id `"nope"` in a store
holding only `demoFolder`, with a valid url. -/
theorem claim_C5_witness :
    handleAddLink ⟨[demoFolder], []⟩ "nope" "n" "https://a.example" "L" =
      (.folderNotFound, none) ∧
    storeAfter ⟨[demoFolder], []⟩
      (handleAddLink ⟨[demoFolder], []⟩ "nope" "n" "https://a.example" "L").2 =
      ⟨[demoFolder], []⟩ :=
  claim_C5 ⟨[demoFolder], []⟩ "nope" "n" "https://a.example" "L"
    (by decide) (by decide) (by decide) ⟨"https://a.example/", by decide⟩ rfl

/-- C8, counterexample: the claim as stated is false.  For the visitor of
`storeOneClaim` (lastClaimAt = 1), denials at `now = 2` and at the strictly
later `now = 3` both carry retryAfter 604800 — time advanced but the value
did not strictly decrease (sub-second advances can leave the ceiling
unchanged). -/
theorem claim_C8_counterexample :
    handleClaim storeOneClaim "v" "l1" 2 = (.denied 604800, none) ∧
    handleClaim storeOneClaim "v" "l1" 3 = (.denied 604800, none) ∧
    (2 : Int) < 3 ∧ ¬ ((604800 : Int) < 604800) := by
  refine ⟨by decide, by decide, by decide, by decide⟩

/-- C8, amended: for a fixed visitor denied by the cooldown, the retryAfter
value of successive denials is non-increasing as time advances, strictly
decreasing whenever time advances by at least one full second, and every
denial issued strictly before the 7-day boundary carries retryAfter ≥ 1 (so
it reaches 0 only at or after the boundary, where no denial occurs). -/
theorem claim_C8 (s : Store) (v id : String) (now1 now2 : Int)
    (fl : Folder × Link) (rec : ClaimRecord)
    (hid : id ≠ "") (hfind : findLinkById s.folders id = some fl)
    (hrec : objGet s.claims v = some rec) (hnz : rec.lastClaimAt ≠ 0)
    (h1 : now1 - rec.lastClaimAt < CLAIM_COOLDOWN_MS)
    (h2 : now2 - rec.lastClaimAt < CLAIM_COOLDOWN_MS)
    (hle : now1 ≤ now2) :
    handleClaim s v id now1 =
      (.denied (ceilDiv1000 (CLAIM_COOLDOWN_MS - (now1 - rec.lastClaimAt))),
        none) ∧
    handleClaim s v id now2 =
      (.denied (ceilDiv1000 (CLAIM_COOLDOWN_MS - (now2 - rec.lastClaimAt))),
        none) ∧
    ceilDiv1000 (CLAIM_COOLDOWN_MS - (now2 - rec.lastClaimAt)) ≤
      ceilDiv1000 (CLAIM_COOLDOWN_MS - (now1 - rec.lastClaimAt)) ∧
    (now1 + 1000 ≤ now2 →
      ceilDiv1000 (CLAIM_COOLDOWN_MS - (now2 - rec.lastClaimAt)) <
        ceilDiv1000 (CLAIM_COOLDOWN_MS - (now1 - rec.lastClaimAt))) ∧
    1 ≤ ceilDiv1000 (CLAIM_COOLDOWN_MS - (now1 - rec.lastClaimAt)) ∧
    1 ≤ ceilDiv1000 (CLAIM_COOLDOWN_MS - (now2 - rec.lastClaimAt)) :=
  ⟨handleClaim_denied hid hfind hrec hnz h1,
    handleClaim_denied hid hfind hrec hnz h2,
    ceilDiv1000_mono (by omega),
    fun hsec => ceilDiv1000_strict (by omega),
    ceilDiv1000_pos (by omega),
    ceilDiv1000_pos (by omega)⟩

/-- C8 witness: the amended theorem on `storeOneClaim` at `now1 = 2` and
`now2 = 1002` (a full second later). -/
theorem claim_C8_witness :
    handleClaim storeOneClaim "v" "l1" 2 =
      (.denied (ceilDiv1000 (CLAIM_COOLDOWN_MS - (2 - (1 : Int)))), none) ∧
    handleClaim storeOneClaim "v" "l1" 1002 =
      (.denied (ceilDiv1000 (CLAIM_COOLDOWN_MS - (1002 - (1 : Int)))), none) ∧
    ceilDiv1000 (CLAIM_COOLDOWN_MS - (1002 - (1 : Int))) ≤
      ceilDiv1000 (CLAIM_COOLDOWN_MS - (2 - (1 : Int))) ∧
    ceilDiv1000 (CLAIM_COOLDOWN_MS - (1002 - (1 : Int))) <
      ceilDiv1000 (CLAIM_COOLDOWN_MS - (2 - (1 : Int))) ∧
    1 ≤ ceilDiv1000 (CLAIM_COOLDOWN_MS - (2 - (1 : Int))) ∧
    1 ≤ ceilDiv1000 (CLAIM_COOLDOWN_MS - (1002 - (1 : Int))) := by
  have h := claim_C8 storeOneClaim "v" "l1" 2 1002
    (demoFolder, ⟨"l1", "n", "https://a/"⟩) ⟨1⟩
    (by decide) rfl rfl (by decide) (by decide) (by decide) (by decide)
  exact ⟨h.1, h.2.1, h.2.2.1, h.2.2.2.1 (by decide), h.2.2.2.2.1,
    h.2.2.2.2.2⟩

end LinksPortal
